import Mathlib

/-!
# Verification of the nvidia-parakeet real-time streaming core

Shallow embedding of the audio segmentation and session protocol engine:

* `src/websocket/audio_processor.py`   — `AudioProcessor` (the Segmenter)
* `src/websocket/transcription_stream.py` — `TranscriptionStream`
* `src/websocket/websocket_handler.py` — `WebSocketHandler` (the Session Manager)

Modelling conventions:

* Audio samples and config values are exact rationals (`ℚ`); the Python code
  uses floats, but none of the verified properties hinges on rounding of
  binary floating point, only on the algebraic structure of the computations.
* A raw audio chunk is modelled as its list of decoded signed 16-bit sample
  values (`List ℤ`), i.e. the result of `np.frombuffer(audio_data, dtype='int16')`
  for the default `dtype='int16'`, which is the only dtype the handler uses.
* The torchaudio resampler is an external collaborator; it is threaded through
  as an abstract function parameter `resample`.  All verified runs use
  `sample_rate == target_sample_rate`, where the source skips resampling.
* The inference engine (`asr_model.transcribe_file`) is an external
  collaborator modelled as a function `Engine` returning either text or a
  failure reason (`Except`), mirroring "returns text or raises".
* `energy > threshold` with `energy = sqrt(mean(x^2))` is embedded without
  square roots as the equivalent decidable comparison on squares; for an empty
  array `np.mean` yields NaN and every NaN comparison is False, which is
  embedded explicitly.
-/

/- The rational-number operations are `@[irreducible]` in the library; make
them reducible again so that concrete runs of the embedded code evaluate by
`decide`/`rfl`. -/
unseal Rat.mul Rat.inv Rat.add Rat.sub Rat.ofScientific

namespace Parakeet

/-- Python `int(q)`: truncation toward zero. -/
def pyInt (q : ℚ) : ℤ := if q < 0 then -(⌊-q⌋) else ⌊q⌋

/-- Nearest integer with ties to even, as Python `round` behaves on ties. -/
def roundHalfEven (q : ℚ) : ℤ :=
  if q - (⌊q⌋ : ℚ) = 1/2 then (if 2 ∣ ⌊q⌋ then ⌊q⌋ else ⌊q⌋ + 1) else round q

/-- Python `round(q, 3)`. -/
def pyRound3 (q : ℚ) : ℚ := (roundHalfEven (q * 1000) : ℚ) / 1000

/-- Mean of squares of a chunk, `np.mean(audio ** 2)` (division by zero for an
empty list yields `0` in `ℚ`; callers treat the empty case explicitly because
in numpy it is NaN). -/
def meanSq (l : List ℚ) : ℚ := (l.map (fun x => x * x)).sum / (l.length : ℚ)

/-- `np.frombuffer(..., dtype='int16').astype(np.float32) / 32768.0`:
normalization of decoded int16 samples to `[-1, 1]`
(audio_processor.py lines 90-94). -/
def int16Audio (audio_data : List ℤ) : List ℚ :=
  audio_data.map (fun v : ℤ => (v : ℚ) / 32768)

/-- `AudioProcessor._detect_voice_activity` (audio_processor.py lines 167-181):
`sqrt(np.mean(audio ** 2)) > vad_threshold`.  For an empty array the mean is
NaN and the comparison is False; otherwise, since the RMS is nonnegative,
the comparison is equivalent to `vad_threshold < 0` or
`vad_threshold² < mean of squares`. -/
def detectVoiceActivity (audio : List ℚ) (vadThreshold : ℚ) : Bool :=
  if audio.isEmpty then false
  else decide (vadThreshold < 0) || decide (vadThreshold * vadThreshold < meanSq audio)

/-- State of `AudioProcessor` (audio_processor.py lines 28-70).  The
`audio_buffer` deque and the cached resampler are omitted: the former is dead
state (never read nor written by `process_chunk`/`get_segment`), the latter
belongs to the abstract external resampler. -/
structure AudioProcessor where
  target_sample_rate : ℚ
  chunk_duration_ms : ℚ
  buffer_duration_s : ℚ
  vad_threshold : ℚ
  silence_duration_s : ℚ
  max_segment_duration_s : ℚ
  chunk_size : ℤ
  buffer_size : ℤ
  silence_chunks : ℤ
  max_segment_samples : ℤ
  current_segment : List ℚ
  silence_counter : ℤ
deriving DecidableEq, Repr

/-- `AudioProcessor.__init__` (audio_processor.py lines 28-70). -/
def AudioProcessor.init (target_sample_rate chunk_duration_ms buffer_duration_s
    vad_threshold silence_duration_s max_segment_duration_s : ℚ) : AudioProcessor :=
  { target_sample_rate := target_sample_rate
    chunk_duration_ms := chunk_duration_ms
    buffer_duration_s := buffer_duration_s
    vad_threshold := vad_threshold
    silence_duration_s := silence_duration_s
    max_segment_duration_s := max_segment_duration_s
    chunk_size := pyInt (target_sample_rate * chunk_duration_ms / 1000)
    buffer_size := pyInt (target_sample_rate * buffer_duration_s)
    silence_chunks := pyInt (silence_duration_s * 1000 / chunk_duration_ms)
    max_segment_samples := pyInt (target_sample_rate * max_segment_duration_s)
    current_segment := []
    silence_counter := 0 }

/-- The default constructor arguments (16 kHz, 100 ms chunks, 2 s buffer,
VAD threshold 0.01, 0.5 s silence, 10 s max segment). -/
def AudioProcessor.default : AudioProcessor :=
  AudioProcessor.init 16000 100 2 (1/100) (1/2) 10

/-- Result of one `process_chunk` call: the updated processor state, the
normalized audio array returned to the caller, and the boundary flag. -/
structure ChunkResult where
  state : AudioProcessor
  audio : List ℚ
  is_end_of_segment : Bool
deriving DecidableEq, Repr

/-- Boundary decision core of `AudioProcessor.process_chunk`
(audio_processor.py lines 100-121), applied to the already normalized and
resampled chunk: append to `current_segment`, then check forced cutoff,
then voiced / silence-counter logic.  The silence counter is untouched on the
forced-cutoff path, matching the `if/elif/else` chain of the source. -/
def processChunkCore (p : AudioProcessor) (audio : List ℚ) : ChunkResult :=
  if ((p.current_segment ++ audio).length : ℤ) ≥ p.max_segment_samples then
    { state := { p with current_segment := p.current_segment ++ audio }
      audio := audio
      is_end_of_segment := true }
  else if detectVoiceActivity audio p.vad_threshold then
    { state := { p with current_segment := p.current_segment ++ audio, silence_counter := 0 }
      audio := audio
      is_end_of_segment := false }
  else
    { state :=
        { p with
          current_segment := p.current_segment ++ audio
          silence_counter := p.silence_counter + 1 }
      audio := audio
      is_end_of_segment :=
        decide (p.silence_counter + 1 ≥ p.silence_chunks)
          && decide ((p.current_segment ++ audio).length > 0) }

/-- `AudioProcessor.process_chunk` (audio_processor.py lines 72-121) for
`dtype='int16'` (the default and the only dtype the handler passes):
decode + normalize, resample when the declared rate differs from the target
(the resampler is the abstract external collaborator `resample`), then run
the boundary core. -/
def AudioProcessor.processChunk (p : AudioProcessor)
    (resample : List ℚ → ℚ → ℚ → List ℚ)
    (audio_data : List ℤ) (sample_rate : ℚ) : ChunkResult :=
  processChunkCore p
    (if sample_rate ≠ p.target_sample_rate then
      resample (int16Audio audio_data) sample_rate p.target_sample_rate
    else int16Audio audio_data)

/-- `AudioProcessor.get_segment` (audio_processor.py lines 123-137): returns
the accumulated segment and clears buffer and silence counter; on an empty
buffer returns nothing and leaves the state untouched. -/
def AudioProcessor.getSegment (p : AudioProcessor) : Option (List ℚ) × AudioProcessor :=
  if p.current_segment.isEmpty then (none, p)
  else (some p.current_segment, { p with current_segment := [], silence_counter := 0 })

/-- `AudioProcessor.reset` (audio_processor.py lines 183-188). -/
def AudioProcessor.reset (p : AudioProcessor) : AudioProcessor :=
  { p with current_segment := [], silence_counter := 0 }

/-- Feed a list of chunks through `process_chunk` at a fixed declared sample
rate, collecting each call's boundary flag (no flush between calls). -/
def feedChunks (resample : List ℚ → ℚ → ℚ → List ℚ) (p : AudioProcessor)
    (chunks : List (List ℤ)) (rate : ℚ) : AudioProcessor × List Bool :=
  match chunks with
  | [] => (p, [])
  | c :: rest =>
    let r := p.processChunk resample c rate
    let next := feedChunks resample r.state rest rate
    (next.1, r.is_end_of_segment :: next.2)

/-- The identity resampler, used to instantiate the abstract collaborator in
concrete runs where no resampling happens. -/
def idResample : List ℚ → ℚ → ℚ → List ℚ := fun a _ _ => a

/-! ## String helpers mirroring the Python string operations used by
`TranscriptionStream._post_process_transcription` and
`_process_transcription`.  ASCII-faithful; the transcripts produced by the
model are ASCII. -/

/-- Python `str.lower()` (ASCII). -/
def strLower (s : String) : String := String.mk (s.data.map Char.toLower)

/-- Python `str.upper()` (ASCII). -/
def strUpper (s : String) : String := String.mk (s.data.map Char.toUpper)

/-- Python `s[0].upper() + s[1:]`. -/
def capitalizeFirst (s : String) : String :=
  match s.data with
  | [] => s
  | c :: rest => String.mk (Char.toUpper c :: rest)

/-- Python `s.strip()`: drop leading and trailing whitespace. -/
def pyStrip (s : String) : String :=
  String.mk (((s.data.dropWhile Char.isWhitespace).reverse.dropWhile Char.isWhitespace).reverse)

/-- Accumulator loop for Python `s.split()`: split on whitespace runs,
producing no empty pieces. -/
def wordsAux : List Char → List Char → List String
  | [], acc => if acc.isEmpty then [] else [String.mk acc.reverse]
  | c :: rest, acc =>
    if c.isWhitespace then
      (if acc.isEmpty then wordsAux rest [] else String.mk acc.reverse :: wordsAux rest [])
    else wordsAux rest (c :: acc)

/-- Python `s.split()`. -/
def pySplitWs (s : String) : List String := wordsAux s.data []

/-- Python `' '.join(l)`. -/
def pyJoinSpace (l : List String) : String := String.join (List.intersperse " " l)

/-- `s.endswith(('.', '!', '?'))`. -/
def endsWithPunct (s : String) : Bool :=
  match s.data.getLast? with
  | some c => c = '.' || c = '!' || c = '?'
  | none => false

/-- One of the sentence-ending characters of the regex class `[.!?]`. -/
def isPunctChar (c : Char) : Bool := c = '.' || c = '!' || c = '?'

/-- `re.split` with the capturing pattern `([.!?]\s*)`: alternating
content/separator pieces, content at even indices, beginning and ending with
a (possibly empty) content piece.  `mode = true` means the accumulator `acc`
holds a separator in progress (reversed); `mode = false` means content. -/
def spAux : List Char → List Char → Bool → List String
  | [], acc, mode => if mode then [String.mk acc.reverse, ""] else [String.mk acc.reverse]
  | c :: rest, acc, mode =>
    if mode then
      if c.isWhitespace then spAux rest (c :: acc) true
      else if isPunctChar c then String.mk acc.reverse :: "" :: spAux rest [c] true
      else String.mk acc.reverse :: spAux rest [c] false
    else
      if isPunctChar c then String.mk acc.reverse :: spAux rest [c] true
      else spAux rest (c :: acc) false

/-- `re.split(r'([.!?]\s*)', s)`. -/
def reSplitPunct (s : String) : List String := spAux s.data [] false

/-- The per-piece transformation of the sentence-capitalization loop in
`_post_process_transcription` (transcription_stream.py lines 270-281):
content pieces (even index) that strip to nonempty are stripped and
capitalized; everything else is kept as-is. -/
def capPiece (evenIdx : Bool) (s : String) : String :=
  if evenIdx ∧ ¬ (pyStrip s).isEmpty then
    (if (pyStrip s).length > 1 then capitalizeFirst (pyStrip s) else strUpper (pyStrip s))
  else s

/-- The enumeration loop applying `capPiece` with its index parity. -/
def capAll : ℕ → List String → List String
  | _, [] => []
  | i, s :: rest => capPiece (i % 2 = 0) s :: capAll (i + 1) rest

/-- `TranscriptionStream._post_process_transcription`
(transcription_stream.py lines 241-283). -/
def postProcessTranscription (text : String) : String :=
  if text.isEmpty then text
  else
    let p1 := strLower text
    let p2 := if ¬ p1.isEmpty then capitalizeFirst p1 else p1
    let p3 :=
      if ¬ p2.isEmpty ∧ ¬ endsWithPunct p2 ∧ (pySplitWs p2).length > 2 then p2 ++ "."
      else p2
    String.join (capAll 0 (spAux p3.data [] false))

/-! ## TranscriptionStream (transcription_stream.py) -/

/-- One entry of the `words` array of a transcription event
(transcription_stream.py lines 314-320).  `stop` models the Python key
named after the segment terminus; `confidence` is the hard-coded placeholder
0.95. -/
structure WordTiming where
  word : String
  start : ℚ
  stop : ℚ
  confidence : ℚ
deriving DecidableEq, Repr

/-- Payload of a `configure` control message (websocket_handler.py lines
320-325): each key is optional. -/
structure StreamConfig where
  sample_rate : Option ℚ
  vad_threshold : Option ℚ
  silence_duration : Option ℚ
deriving DecidableEq, Repr

/-- An outbound event dictionary.  Fields that a given event type does not
set are `none`.  Wall-clock fields (`timestamp`, `processing_time_ms`) are
not modelled: no verified property concerns real time. -/
structure Event where
  type : String
  segment_id : Option ℤ
  text : Option String
  is_final : Option Bool
  words : Option (List WordTiming)
  duration : Option ℚ
  error : Option String
  final_transcript : Option String
  config : Option StreamConfig
deriving DecidableEq, Repr

/-- An event with only the `type` key set, for building the various payloads. -/
def baseEvent (t : String) : Event :=
  { type := t, segment_id := none, text := none, is_final := none, words := none
    duration := none, error := none, final_transcript := none, config := none }

/-- Mutable transcription state of `TranscriptionStream`
(transcription_stream.py lines 57-62).  `partialText` models the
`partial_transcript` field; the dead `word_timings` list is omitted. -/
structure TranscriptionStream where
  segment_id : ℤ
  partialText : String
  final_transcripts : List String
  current_time_offset : ℚ
deriving DecidableEq, Repr

/-- Fresh transcription state, as set in `__init__` and `reset`
(transcription_stream.py lines 57-62 and 363-370). -/
def TranscriptionStream.init : TranscriptionStream :=
  { segment_id := 0, partialText := "", final_transcripts := [], current_time_offset := 0 }

/-- The external Inference Engine (`asr_model.transcribe_file` on the WAV of
the segment): given the segment samples, returns the raw transcript text or a
failure reason (an exception in the source). -/
def Engine := List ℚ → Except String String

/-- `TranscriptionStream._run_inference` (transcription_stream.py lines
132-239) over the abstract engine.  On success the raw text is
post-processed.  When the engine raises, the handler at lines 218-230 falls
back to an energy check on `audio_numpy`: near-silent audio
(`sqrt(mean(x²)) < 0.001`, False for empty audio whose mean is NaN) yields
`""`, anything else the placeholder `"[audio processing error]"`.  No
exception escapes this function. -/
def runInference (engine : Engine) (audio : List ℚ) : String :=
  match engine audio with
  | Except.ok raw => postProcessTranscription raw
  | Except.error _ =>
    if ¬ audio.isEmpty ∧ meanSq audio < 1/1000000 then "" else "[audio processing error]"

/-- The word-timing loop of `_process_transcription` (transcription_stream.py
lines 312-321): distribute `time_per_word` evenly, starting at the running
offset, rounding each endpoint to 3 decimals, fixed confidence 0.95. -/
def genWordsAux (tpw : ℚ) : List String → ℚ → List WordTiming
  | [], _ => []
  | w :: rest, t =>
    { word := w, start := pyRound3 t, stop := pyRound3 (t + tpw), confidence := 19/20 }
      :: genWordsAux tpw rest (t + tpw)

/-- `TranscriptionStream._process_transcription` (transcription_stream.py
lines 285-332): builds the result dictionary.  Note the `words` array is
generated from the text alone — including for non-final results — and
`segment_id` is the current counter value for final and partial results
alike. -/
def processTranscription (ts : TranscriptionStream) (text : String) (duration : ℚ)
    (is_final : Bool) : Event :=
  { baseEvent "transcription" with
    segment_id := some ts.segment_id
    text := some text
    is_final := some is_final
    duration := some (pyRound3 duration)
    words := some
      (if text.isEmpty then []
       else
        (if (pySplitWs (pyStrip text)).isEmpty then []
         else
          genWordsAux
            (if (pySplitWs (pyStrip text)).length > 0 then
              duration / ((pySplitWs (pyStrip text)).length : ℚ)
            else 0)
            (pySplitWs (pyStrip text)) ts.current_time_offset)) }

/-- `TranscriptionStream._error_result` (transcription_stream.py lines
334-349). -/
def errorResult (ts : TranscriptionStream) (msg : String) : Event :=
  { baseEvent "error" with segment_id := some ts.segment_id, error := some msg }

/-- `TranscriptionStream.transcribe_segment` (transcription_stream.py lines
66-130).  All steps of the embedded pipeline are total, so the broad
`except` branch at lines 128-130 (guarding the tensor conversions) is
unreachable here; engine failures are already absorbed inside
`runInference`.  On a final result the text is appended to the accumulated
transcript, the running time offset advances by the segment duration and the
segment counter increments; on a partial result only `partial_transcript` is
replaced. -/
def transcribeSegment (engine : Engine) (ts : TranscriptionStream) (audio : List ℚ)
    (sample_rate : ℚ) (is_final : Bool) : TranscriptionStream × Event :=
  let duration := (audio.length : ℚ) / sample_rate
  let text := runInference engine audio
  let result := processTranscription ts text duration is_final
  if is_final then
    ({ ts with
        final_transcripts := ts.final_transcripts ++ [text]
        current_time_offset := ts.current_time_offset + duration
        segment_id := ts.segment_id + 1 }, result)
  else
    ({ ts with partialText := text }, result)

/-- `TranscriptionStream.get_full_transcript` (transcription_stream.py lines
351-361). -/
def getFullTranscript (ts : TranscriptionStream) : String :=
  pyStrip
    (if ¬ ts.partialText.isEmpty then
      pyJoinSpace ts.final_transcripts ++ " " ++ ts.partialText
    else pyJoinSpace ts.final_transcripts)

/-- Run a sequence of `transcribe_segment` calls at the handler's fixed
16 kHz rate; each request is a segment together with its finality flag. -/
def runSegments (engine : Engine) : TranscriptionStream → List (List ℚ × Bool) →
    TranscriptionStream × List Event
  | ts, [] => (ts, [])
  | ts, (audio, fin) :: rest =>
    let r := transcribeSegment engine ts audio 16000 fin
    let next := runSegments engine r.1 rest
    (next.1, r.2 :: next.2)

/-- The `(is_final, segment_id)` metadata sequence that
`transcribe_segment` produces for a request list, starting from counter
value `c`: every event carries the current counter, which advances only
after finals. -/
def expectedMeta (c : ℤ) : List (List ℚ × Bool) → List (Option Bool × Option ℤ)
  | [] => []
  | (_, fin) :: rest => (some fin, some c) :: expectedMeta (if fin then c + 1 else c) rest

/-- The `segment_id` values carried by the final events of a request list
when the counter starts at `c`: one id per final request, consecutive from
`c`. -/
def finalIds (c : ℤ) : List (List ℚ × Bool) → List (Option ℤ)
  | [] => []
  | (_, fin) :: rest => if fin then some c :: finalIds (c + 1) rest else finalIds c rest

/-- A stub engine always transcribing to the fixed text "hi". -/
def engineHi : Engine := fun _ => Except.ok "hi"

/-- A stub engine always transcribing to the fixed text "hello world". -/
def engineHW : Engine := fun _ => Except.ok "hello world"

/-- A stub engine that always fails, standing for a raising
`asr_model.transcribe_file`. -/
def engineFail : Engine := fun _ => Except.error "CUDA out of memory"

/-- The word timing that the session emits for "Hi" right after a 1-sample
final segment: the true offset 1/16000 s rounds to 0 at 3 decimals. -/
def wHi : WordTiming := { word := "Hi", start := 0, stop := 0, confidence := 19/20 }

/-! ## WebSocketHandler (websocket_handler.py) — the Session Manager.

One connection's state; the handler's dictionaries keyed by `client_id` hold
one such record per connection, and the per-connection task processes its
messages sequentially. -/

/-- The per-connection state dictionary created in `connect`
(websocket_handler.py lines 56-68); `connected_at` (wall clock) is omitted. -/
structure ConnState where
  audio_processor : AudioProcessor
  transcription_stream : TranscriptionStream
  total_audio_duration : ℚ
  total_segments : ℤ
  is_recording : Bool
deriving DecidableEq, Repr

/-- Fresh connection state as initialized in `connect`. -/
def ConnState.init : ConnState :=
  { audio_processor := AudioProcessor.default
    transcription_stream := TranscriptionStream.init
    total_audio_duration := 0
    total_segments := 0
    is_recording := false }

/-- The payload of `send_error` (websocket_handler.py lines 353-365), minus
the wall-clock timestamp. -/
def errorEvent (msg : String) : Event := { baseEvent "error" with error := some msg }

/-- A decoded inbound control frame: either `json.loads` raised
(`malformed`, carrying the exception text), or it produced an object whose
optional `type` field and configure keys are retained.  The JSON library is
external; byte-level JSON parsing is not re-implemented. -/
inductive ControlMsg
  | malformed (err : String)
  | parsed (msgType : Option String) (config : StreamConfig)
deriving DecidableEq, Repr

/-- An inbound WebSocket frame as the server loop receives it
(docker/rnnt-server-websocket.py lines 101-119): either a text frame (whose
UTF-8 encoding the loop passes on) or a binary frame.  Both are forwarded to
`handle_message` as plain bytes, dropping the kind.  Bytes are `ℕ` values
< 256. -/
inductive Frame
  | text (encoded : List ℕ)
  | bin (b : List ℕ)
deriving DecidableEq, Repr

/-- The bytes `handle_message` actually receives for a frame. -/
def frameBytes : Frame → List ℕ
  | Frame.text e => e
  | Frame.bin b => b

/-- The classification test of `handle_message` (websocket_handler.py line
121): `message[:1] == b'{'`, i.e. the first byte is 0x7B. -/
def isControlFrame (message : List ℕ) : Bool := message.take 1 = [123]

/-- Which handler a message is dispatched to. -/
inductive Route
  | control
  | audio
deriving DecidableEq, Repr

/-- The dispatch decision of `handle_message` (websocket_handler.py lines
119-126). -/
def routeMessage (message : List ℕ) : Route :=
  if isControlFrame message then Route.control else Route.audio

/-- Dispatch for a frame: the server loop forwards only the bytes, so the
routing can only depend on them. -/
def routeFrame (f : Frame) : Route := routeMessage (frameBytes f)

/-- `np.frombuffer(audio_data, dtype='int16')`: little-endian signed 16-bit
decoding; an odd-length buffer raises `ValueError` (`none`). -/
def decodeInt16Bytes : List ℕ → Option (List ℤ)
  | [] => some []
  | [_] => none
  | lo :: hi :: rest =>
    (decodeInt16Bytes rest).map (fun l =>
      (if lo + 256 * hi ≥ 32768 then (lo + 256 * hi : ℤ) - 65536 else (lo + 256 * hi : ℤ)) :: l)

/-- `WebSocketHandler._start_recording` (websocket_handler.py lines
227-257): reset both processors, mark recording, confirm.  The confirmation
echoes the freeform client config, which is not modelled. -/
def startRecording (st : ConnState) : ConnState × List Event :=
  ({ st with
      audio_processor := st.audio_processor.reset
      transcription_stream := TranscriptionStream.init
      is_recording := true },
   [baseEvent "recording_started"])

/-- `WebSocketHandler._stop_recording` (websocket_handler.py lines 259-297):
stop, flush any remaining audio as a final segment (emitting its event),
then emit `recording_stopped` carrying the full transcript. -/
def stopRecording (engine : Engine) (st : ConnState) : ConnState × List Event :=
  let seg := st.audio_processor.getSegment
  match seg.1 with
  | some s =>
    if s.length > 0 then
      let r := transcribeSegment engine st.transcription_stream s 16000 true
      ({ st with is_recording := false, audio_processor := seg.2, transcription_stream := r.1 },
       [r.2, { baseEvent "recording_stopped" with final_transcript := some (getFullTranscript r.1) }])
    else
      ({ st with is_recording := false, audio_processor := seg.2 },
       [{ baseEvent "recording_stopped" with
            final_transcript := some (getFullTranscript st.transcription_stream) }])
  | none =>
    ({ st with is_recording := false, audio_processor := seg.2 },
     [{ baseEvent "recording_stopped" with
          final_transcript := some (getFullTranscript st.transcription_stream) }])

/-- `WebSocketHandler._configure_stream` (websocket_handler.py lines
299-330): overwrite `target_sample_rate`, `vad_threshold` and
`silence_duration_s` on the processor for whichever keys are present, then
echo the applied config.  Nothing else on the processor is recomputed. -/
def configureStream (st : ConnState) (cfg : StreamConfig) : ConnState × List Event :=
  let p0 := st.audio_processor
  let p1 := match cfg.sample_rate with
    | some v => { p0 with target_sample_rate := v }
    | none => p0
  let p2 := match cfg.vad_threshold with
    | some v => { p1 with vad_threshold := v }
    | none => p1
  let p3 := match cfg.silence_duration with
    | some v => { p2 with silence_duration_s := v }
    | none => p2
  ({ st with audio_processor := p3 }, [{ baseEvent "configured" with config := some cfg }])

/-- `WebSocketHandler._handle_control_message` (websocket_handler.py lines
132-166): dispatch on the parsed `type` field.  A `json.JSONDecodeError`
yields a single error event; an unrecognized `type` is only logged — no
event is sent and no state changes. -/
def handleControlMessage (engine : Engine) (st : ConnState) (msg : ControlMsg) :
    ConnState × List Event :=
  match msg with
  | ControlMsg.malformed err => (st, [errorEvent ("Invalid JSON: " ++ err)])
  | ControlMsg.parsed msgType cfg =>
    if msgType = some "start_recording" then startRecording st
    else if msgType = some "stop_recording" then stopRecording engine st
    else if msgType = some "configure" then configureStream st cfg
    else if msgType = some "ping" then (st, [baseEvent "pong"])
    else (st, [])

/-- `WebSocketHandler._handle_audio_data` (websocket_handler.py lines
168-225): drop audio silently unless recording; process the chunk (always
declared as 16 kHz int16, the call site passes no overrides); on a boundary
flush and transcribe a final segment; otherwise re-transcribe the whole
in-flight buffer as a partial once it exceeds 16000 samples, overwriting the
event type with `partial`.  An undecodable (odd-length) buffer raises inside
`np.frombuffer` and is surfaced as an error event by the enclosing `except`. -/
def handleAudioData (engine : Engine) (resample : List ℚ → ℚ → ℚ → List ℚ)
    (st : ConnState) (audio_data : List ℕ) : ConnState × List Event :=
  if ¬ st.is_recording then (st, [])
  else
    match decodeInt16Bytes audio_data with
    | none => (st, [errorEvent "Audio processing failed: buffer size mismatch"])
    | some samples =>
      let r := st.audio_processor.processChunk resample samples 16000
      if r.is_end_of_segment then
        let seg := r.state.getSegment
        match seg.1 with
        | some s =>
          if s.length > 0 then
            let t := transcribeSegment engine st.transcription_stream s 16000 true
            ({ st with
                audio_processor := seg.2
                transcription_stream := t.1
                total_segments := st.total_segments + 1
                total_audio_duration := st.total_audio_duration + (s.length : ℚ) / 16000 },
             [t.2])
          else ({ st with audio_processor := seg.2 }, [])
        | none => ({ st with audio_processor := seg.2 }, [])
      else
        if r.state.current_segment.length > 16000 then
          let t := transcribeSegment engine st.transcription_stream r.state.current_segment 16000 false
          ({ st with audio_processor := r.state, transcription_stream := t.1 },
           [{ t.2 with type := "partial" }])
        else ({ st with audio_processor := r.state }, [])

/-- `WebSocketHandler.handle_message` (websocket_handler.py lines 105-130):
route by first byte; `jsonDecode` stands for the external
`json.loads(message.decode('utf-8'))` step of the control path. -/
def handleMessage (engine : Engine) (resample : List ℚ → ℚ → ℚ → List ℚ)
    (jsonDecode : List ℕ → ControlMsg) (st : ConnState) (message : List ℕ) :
    ConnState × List Event :=
  match routeMessage message with
  | Route.control => handleControlMessage engine st (jsonDecode message)
  | Route.audio => handleAudioData engine resample st message

/-! ## Small concrete processor configurations used for concrete runs.
They exercise the same `__init__` computation as the default, with a low
target rate so that single samples stand for whole chunks. -/

/-- 4 Hz target, 1 s max segment: `max_segment_samples = 4`. -/
def apSmall : AudioProcessor := AudioProcessor.init 4 100 2 (1/100) (1/2) 1

/-- 10 Hz target, 0.2 s silence at 100 ms chunks: `silence_chunks = 2`. -/
def apSilence2 : AudioProcessor := AudioProcessor.init 10 100 2 (1/100) (1/5) 10

/-- 10 Hz target with the default 0.5 s silence: `silence_chunks = 5`. -/
def apTen : AudioProcessor := AudioProcessor.init 10 100 2 (1/100) (1/2) 10

/-- A recording session over `apTen`. -/
def stTen : ConnState :=
  { ConnState.init with audio_processor := apTen, is_recording := true }

/-- A `configure` payload shortening the silence duration to 0.2 s. -/
def cfgSilence : StreamConfig :=
  { sample_rate := none, vad_threshold := none, silence_duration := some (1/5) }

/-- Boundary flags reported by a run of consecutive silent chunks when the
silence counter starts at `c` and the configured threshold is `s`: the i-th
silent chunk (0-indexed) reports a boundary iff `c + i + 1 ≥ s`. -/
def silentFlags (s : ℤ) : ℤ → ℕ → List Bool
  | _, 0 => []
  | c, k + 1 => decide (c + 1 ≥ s) :: silentFlags s (c + 1) k

/-! ## Helper lemmas about the Segmenter step -/

theorem int16Audio_length (l : List ℤ) : (int16Audio l).length = l.length := by
  rw [int16Audio, List.length_map]

theorem processChunk_at_target (p : AudioProcessor) (res : List ℚ → ℚ → ℚ → List ℚ)
    (audio_data : List ℤ) :
    p.processChunk res audio_data p.target_sample_rate
      = processChunkCore p (int16Audio audio_data) := by
  simp [AudioProcessor.processChunk]

theorem processChunkCore_forced {p : AudioProcessor} {audio : List ℚ}
    (h : ((p.current_segment ++ audio).length : ℤ) ≥ p.max_segment_samples) :
    processChunkCore p audio =
      { state := { p with current_segment := p.current_segment ++ audio }
        audio := audio
        is_end_of_segment := true } := by
  rw [processChunkCore, if_pos h]

theorem processChunkCore_voiced {p : AudioProcessor} {audio : List ℚ}
    (hmax : ¬ ((p.current_segment ++ audio).length : ℤ) ≥ p.max_segment_samples)
    (hv : detectVoiceActivity audio p.vad_threshold = true) :
    processChunkCore p audio =
      { state := { p with current_segment := p.current_segment ++ audio, silence_counter := 0 }
        audio := audio
        is_end_of_segment := false } := by
  rw [processChunkCore, if_neg hmax, if_pos hv]

theorem processChunkCore_silent {p : AudioProcessor} {audio : List ℚ}
    (hmax : ¬ ((p.current_segment ++ audio).length : ℤ) ≥ p.max_segment_samples)
    (hv : detectVoiceActivity audio p.vad_threshold = false) :
    processChunkCore p audio =
      { state :=
          { p with
            current_segment := p.current_segment ++ audio
            silence_counter := p.silence_counter + 1 }
        audio := audio
        is_end_of_segment :=
          decide (p.silence_counter + 1 ≥ p.silence_chunks)
            && decide ((p.current_segment ++ audio).length > 0) } := by
  rw [processChunkCore, if_neg hmax, if_neg (by simp [hv])]

theorem feedChunks_silent (res : List ℚ → ℚ → ℚ → List ℚ) (silent : List ℤ) :
    ∀ (k : ℕ) (p : AudioProcessor) (rate : ℚ),
      rate = p.target_sample_rate →
      detectVoiceActivity (int16Audio silent) p.vad_threshold = false →
      (p.current_segment.length : ℤ) + k * silent.length < p.max_segment_samples →
      p.current_segment ≠ [] →
      (feedChunks res p (List.replicate k silent) rate).2
        = silentFlags p.silence_chunks p.silence_counter k := by
  intro k
  induction k with
  | zero => intro p rate _ _ _ _; simp [feedChunks, silentFlags]
  | succ k ih =>
    intro p rate hrate hsil hmax hne
    subst hrate
    have hL : ((p.current_segment ++ int16Audio silent).length : ℤ)
        = (p.current_segment.length : ℤ) + silent.length := by
      rw [List.length_append, int16Audio_length]
      push_cast
      ring
    have hmax' : ((p.current_segment ++ int16Audio silent).length : ℤ)
        + (k : ℤ) * silent.length < p.max_segment_samples := by
      rw [hL]
      have h1 : ((k : ℤ) + 1) * (silent.length : ℤ)
          = (k : ℤ) * silent.length + silent.length := by ring
      push_cast at hmax
      omega
    have hk0 : (0 : ℤ) ≤ (k : ℤ) * silent.length := by positivity
    have hstep : ¬ ((p.current_segment ++ int16Audio silent).length : ℤ)
        ≥ p.max_segment_samples := by omega
    have hpos : (p.current_segment ++ int16Audio silent).length > 0 := by
      have h2 := List.length_pos.mpr hne
      rw [List.length_append]
      omega
    have hd : decide ((p.current_segment ++ int16Audio silent).length > 0) = true :=
      decide_eq_true hpos
    rw [List.replicate_succ]
    simp only [feedChunks, processChunk_at_target, processChunkCore_silent hstep hsil, hd,
      Bool.and_true]
    rw [silentFlags]
    have hrec := ih
      { p with
        current_segment := p.current_segment ++ int16Audio silent
        silence_counter := p.silence_counter + 1 }
      p.target_sample_rate rfl hsil hmax' (List.append_ne_nil_of_left_ne_nil hne _)
    exact congrArg (decide (p.silence_counter + 1 ≥ p.silence_chunks) :: ·) hrec

theorem silentFlags_eq (s : ℤ) :
    ∀ (k : ℕ) (c : ℤ),
      silentFlags s c k
        = (List.range k).map (fun n : ℕ => decide ((c + n + 1 : ℤ) ≥ s)) := by
  intro k
  induction k with
  | zero => intro c; simp [silentFlags]
  | succ k ih =>
    intro c
    rw [silentFlags, List.range_succ_eq_map, List.map_cons, List.map_map, ih (c + 1)]
    congr 1
    · exact decide_eq_decide.mpr (by push_cast; omega)
    · exact List.map_congr_left (fun i _ => decide_eq_decide.mpr (by push_cast; omega))

/-! ## Claim C1 — forced cutoff -/

/-- C1 counterexample: with `max_segment_samples = 4`, a single voiced
5-sample chunk makes the in-flight buffer hold 5 > 4 samples (the forced
cutoff is checked only after appending), and the flushed forced segment has
length 5, not exactly `max_segment_samples`.  This refutes both the "never
exceeds" and the "exactly maxSegmentSamples" parts of the claim as stated. -/
theorem c1_counterexample :
    (apSmall.processChunk idResample [16384, 16384, 16384, 16384, 16384]
        apSmall.target_sample_rate).is_end_of_segment = true
    ∧ apSmall.max_segment_samples = 4
    ∧ ¬ (((apSmall.processChunk idResample [16384, 16384, 16384, 16384, 16384]
        apSmall.target_sample_rate).state.current_segment.length : ℤ)
          ≤ apSmall.max_segment_samples)
    ∧ ((apSmall.processChunk idResample [16384, 16384, 16384, 16384, 16384]
        apSmall.target_sample_rate).state.getSegment.1.map List.length ≠ some 4) := by
  decide

/-- C1 (amended): starting from a buffer strictly below `maxSegmentSamples`
(the invariant a caller maintains by flushing at every boundary), processing
a voiced chunk grows the buffer by exactly the chunk length, so it can
overshoot `maxSegmentSamples` by at most the chunk length minus one; the
boundary flag is reported exactly when the new count reaches
`maxSegmentSamples`; and on a boundary, `get_segment` returns the whole
buffer and restarts accumulation from an empty buffer with a cleared silence
counter.  The flushed segment is exactly `maxSegmentSamples` long only when
chunk sizes divide it evenly. -/
theorem c1_forced_cutoff_amended (p : AudioProcessor) (res : List ℚ → ℚ → ℚ → List ℚ)
    (chunk : List ℤ)
    (hvoice : detectVoiceActivity (int16Audio chunk) p.vad_threshold = true)
    (hlt : (p.current_segment.length : ℤ) < p.max_segment_samples) :
    ((p.processChunk res chunk p.target_sample_rate).state.current_segment.length
        = p.current_segment.length + chunk.length)
    ∧ (((p.processChunk res chunk p.target_sample_rate).state.current_segment.length : ℤ)
        < p.max_segment_samples + chunk.length)
    ∧ ((p.processChunk res chunk p.target_sample_rate).is_end_of_segment = true
        ↔ p.max_segment_samples ≤ (p.current_segment.length : ℤ) + chunk.length)
    ∧ ((p.processChunk res chunk p.target_sample_rate).is_end_of_segment = true →
        (p.processChunk res chunk p.target_sample_rate).state.getSegment
          = (some (p.processChunk res chunk p.target_sample_rate).state.current_segment,
             { (p.processChunk res chunk p.target_sample_rate).state with
                 current_segment := [], silence_counter := 0 })) := by
  rw [processChunk_at_target]
  have hL : (p.current_segment ++ int16Audio chunk).length
      = p.current_segment.length + chunk.length := by
    rw [List.length_append, int16Audio_length]
  by_cases hforced :
      ((p.current_segment ++ int16Audio chunk).length : ℤ) ≥ p.max_segment_samples
  · rw [processChunkCore_forced hforced]
    have hlen : (p.current_segment.length : ℤ) + chunk.length ≥ p.max_segment_samples := by
      rw [hL] at hforced
      push_cast at hforced
      omega
    have hne : p.current_segment ++ int16Audio chunk ≠ [] := by
      intro hnil
      rw [hL] at hforced
      rw [hnil] at hL
      simp at hL
      push_cast at hforced
      omega
    refine ⟨hL, ?_, ⟨fun _ => hlen, fun _ => rfl⟩, fun _ => ?_⟩
    · rw [hL]
      push_cast
      omega
    · rw [AudioProcessor.getSegment,
        if_neg (by simpa [List.isEmpty_iff] using hne)]
  · rw [processChunkCore_voiced hforced hvoice]
    have hlen : ¬ p.max_segment_samples ≤ (p.current_segment.length : ℤ) + chunk.length := by
      rw [hL] at hforced
      push_cast at hforced
      omega
    refine ⟨hL, ?_, ⟨fun h => by simp at h, fun h => absurd h hlen⟩, fun h => by simp at h⟩
    rw [hL]
    push_cast
    omega

/-- C1 witness: the amended theorem applied to the concrete 5-sample voiced
chunk of the counterexample configuration. -/
theorem c1_forced_cutoff_witness :
    (detectVoiceActivity (int16Audio [16384, 16384, 16384, 16384, 16384])
        apSmall.vad_threshold = true)
    ∧ ((apSmall.current_segment.length : ℤ) < apSmall.max_segment_samples)
    ∧ (((apSmall.processChunk idResample [16384, 16384, 16384, 16384, 16384]
          apSmall.target_sample_rate).state.current_segment.length
            = apSmall.current_segment.length + 5)
       ∧ (((apSmall.processChunk idResample [16384, 16384, 16384, 16384, 16384]
          apSmall.target_sample_rate).state.current_segment.length : ℤ)
            < apSmall.max_segment_samples + 5)
       ∧ ((apSmall.processChunk idResample [16384, 16384, 16384, 16384, 16384]
          apSmall.target_sample_rate).is_end_of_segment = true
            ↔ apSmall.max_segment_samples ≤ (apSmall.current_segment.length : ℤ) + 5)
       ∧ ((apSmall.processChunk idResample [16384, 16384, 16384, 16384, 16384]
          apSmall.target_sample_rate).is_end_of_segment = true →
          (apSmall.processChunk idResample [16384, 16384, 16384, 16384, 16384]
            apSmall.target_sample_rate).state.getSegment
            = (some (apSmall.processChunk idResample [16384, 16384, 16384, 16384, 16384]
                apSmall.target_sample_rate).state.current_segment,
               { (apSmall.processChunk idResample [16384, 16384, 16384, 16384, 16384]
                  apSmall.target_sample_rate).state with
                   current_segment := [], silence_counter := 0 }))) :=
  ⟨by decide, by decide,
    c1_forced_cutoff_amended apSmall idResample [16384, 16384, 16384, 16384, 16384]
      (by decide) (by decide)⟩

/-! ## Claim C4 — silence boundary -/

/-- C4 counterexample: with `silence_chunks = 2` (0.2 s of silence at 100 ms
chunks), one voiced chunk followed by N = 3 silent chunks — satisfying
N · chunkDuration = 0.3 s ≥ 0.2 s — produces boundary reports on the 2nd
*and* 3rd silent chunks: two boundaries, not exactly one. -/
theorem c4_counterexample :
    ((3 : ℚ) * (apSilence2.chunk_duration_ms / 1000) ≥ apSilence2.silence_duration_s)
    ∧ (feedChunks idResample apSilence2 [[16384], [0], [0], [0]]
        apSilence2.target_sample_rate).2 = [false, false, true, true]
    ∧ ¬ (((feedChunks idResample apSilence2 [[16384], [0], [0], [0]]
        apSilence2.target_sample_rate).2.countP (fun b => b)) = 1) := by
  decide

/-- C4 (amended): after a voiced chunk, the i-th consecutive silent chunk
(1-indexed) reports a boundary exactly when `i ≥ silence_chunks` — the first
boundary falls exactly on the `silence_chunks`-th silent chunk, but, absent
an intervening flush, every later silent chunk reports a boundary again
(silent chunks keep accumulating into the non-empty buffer), so N silent
chunks yield exactly one boundary only when N = `silence_chunks`. -/
theorem c4_silence_boundary_amended (p : AudioProcessor) (res : List ℚ → ℚ → ℚ → List ℚ)
    (voiced silent : List ℤ) (k : ℕ)
    (hv : detectVoiceActivity (int16Audio voiced) p.vad_threshold = true)
    (hs : detectVoiceActivity (int16Audio silent) p.vad_threshold = false)
    (hvne : voiced ≠ [])
    (hmax : ((p.current_segment.length : ℤ) + voiced.length) + k * silent.length
        < p.max_segment_samples) :
    (feedChunks res p (voiced :: List.replicate k silent) p.target_sample_rate).2
      = false :: (List.range k).map (fun n : ℕ => decide ((n + 1 : ℤ) ≥ p.silence_chunks)) := by
  have hk0 : (0 : ℤ) ≤ (k : ℤ) * silent.length := by positivity
  have hL : ((p.current_segment ++ int16Audio voiced).length : ℤ)
      = (p.current_segment.length : ℤ) + voiced.length := by
    rw [List.length_append, int16Audio_length]
    push_cast
    ring
  have hstep : ¬ ((p.current_segment ++ int16Audio voiced).length : ℤ)
      ≥ p.max_segment_samples := by
    rw [hL]
    omega
  simp only [feedChunks, processChunk_at_target, processChunkCore_voiced hstep hv]
  have hne : p.current_segment ++ int16Audio voiced ≠ [] := by
    refine List.append_ne_nil_of_right_ne_nil _ ?_
    intro hnil
    exact hvne (by simpa [int16Audio] using congrArg List.length hnil)
  have hrec := feedChunks_silent res silent k
    { p with
      current_segment := p.current_segment ++ int16Audio voiced
      silence_counter := 0 }
    p.target_sample_rate rfl hs
    (by
      show ((p.current_segment ++ int16Audio voiced).length : ℤ) + (k : ℤ) * silent.length
          < p.max_segment_samples
      rw [hL]
      exact hmax)
    hne
  rw [hrec]
  have hflags := silentFlags_eq p.silence_chunks k 0
  refine congrArg (false :: ·) ?_
  rw [hflags]
  exact List.map_congr_left (fun i _ => decide_eq_decide.mpr (by omega))

/-- C4 witness: the amended theorem applied to the configuration with
`silence_chunks = 2`, one voiced chunk and three silent chunks. -/
theorem c4_silence_boundary_witness :
    (detectVoiceActivity (int16Audio [16384]) apSilence2.vad_threshold = true)
    ∧ (detectVoiceActivity (int16Audio [0]) apSilence2.vad_threshold = false)
    ∧ ([16384] ≠ ([] : List ℤ))
    ∧ (((apSilence2.current_segment.length : ℤ) + (1 : ℕ)) + (3 : ℕ) * (1 : ℕ)
        < apSilence2.max_segment_samples)
    ∧ (feedChunks idResample apSilence2 ([16384] :: List.replicate 3 [0])
        apSilence2.target_sample_rate).2
        = false :: (List.range 3).map (fun n : ℕ => decide ((n + 1 : ℤ) ≥ apSilence2.silence_chunks)) :=
  ⟨by decide, by decide, by decide, by decide,
    c4_silence_boundary_amended apSilence2 idResample [16384] [0] 3
      (by decide) (by decide) (by decide) (by decide)⟩

/-! ## Claim C9 — reconfiguration (code bug: stale silence threshold) -/

/-- C9: the `configure` path stores the new silence duration in
`silence_duration_s` but never recomputes `silence_chunks`, so boundary
detection still requires the original number of silent chunks.  Here the
silence duration is reconfigured from 0.5 s to 0.2 s (= 2 chunks of 100 ms),
yet a voiced chunk followed by two silent chunks — 0.2 s of silence —
produces no boundary, because `silence_chunks` is still 5. -/
theorem c9_stale_silence_chunks :
    ((configureStream stTen cfgSilence).1.audio_processor.silence_duration_s = 1/5)
    ∧ ((configureStream stTen cfgSilence).1.audio_processor.silence_chunks = 5)
    ∧ ((2 : ℚ) * (apTen.chunk_duration_ms / 1000) ≥ 1/5)
    ∧ ((feedChunks idResample (configureStream stTen cfgSilence).1.audio_processor
        [[16384], [0], [0]] 10).2 = [false, false, false]) := by
  decide

/-! ## Claim C10 — empty chunk -/

/-- C10 counterexample: an empty chunk is not a no-op.  On a fresh default
processor it increments the consecutive-silence counter from 0 to 1 (the
NaN energy of an empty array compares as not-voiced), so the Segmenter state
changes. -/
theorem c10_counterexample :
    ((AudioProcessor.default.processChunk idResample [] 16000).state.silence_counter = 1)
    ∧ (AudioProcessor.default.silence_counter = 0)
    ∧ ((AudioProcessor.default.processChunk idResample [] 16000).is_end_of_segment = false)
    ∧ ¬ ((AudioProcessor.default.processChunk idResample [] 16000).state
          = AudioProcessor.default) := by
  decide

/-- C10 (amended): an empty chunk appends nothing — the buffer is unchanged —
but it is classified as silent, so unless the buffer has already reached the
forced-cutoff size (in which case a boundary is reported with the counter
untouched) the consecutive-silence counter increments, and the boundary flag
is computed from the incremented counter and the existing buffer: with a
non-empty buffer an empty chunk can therefore trigger the silence boundary.
It is a no-op on the buffer contents only, not on the Segmenter state. -/
theorem c10_empty_chunk_amended (p : AudioProcessor) (res : List ℚ → ℚ → ℚ → List ℚ) :
    ((p.processChunk res [] p.target_sample_rate).state.current_segment = p.current_segment)
    ∧ ((p.processChunk res [] p.target_sample_rate).audio = [])
    ∧ (if p.max_segment_samples ≤ (p.current_segment.length : ℤ) then
        (p.processChunk res [] p.target_sample_rate).state.silence_counter = p.silence_counter
        ∧ (p.processChunk res [] p.target_sample_rate).is_end_of_segment = true
      else
        (p.processChunk res [] p.target_sample_rate).state.silence_counter
            = p.silence_counter + 1
        ∧ (p.processChunk res [] p.target_sample_rate).is_end_of_segment
            = (decide (p.silence_counter + 1 ≥ p.silence_chunks)
                && decide (p.current_segment.length > 0))) := by
  rw [processChunk_at_target]
  have hnil : int16Audio [] = [] := rfl
  rw [hnil]
  have happ : p.current_segment ++ [] = p.current_segment := List.append_nil _
  by_cases hforced : ((p.current_segment ++ ([] : List ℚ)).length : ℤ) ≥ p.max_segment_samples
  · rw [processChunkCore_forced hforced]
    rw [happ] at hforced ⊢
    refine ⟨rfl, rfl, ?_⟩
    rw [if_pos (by omega)]
    exact ⟨rfl, rfl⟩
  · have hsil : detectVoiceActivity ([] : List ℚ) p.vad_threshold = false := rfl
    rw [processChunkCore_silent hforced hsil]
    rw [happ] at hforced ⊢
    refine ⟨rfl, rfl, ?_⟩
    rw [if_neg (by omega)]
    exact ⟨rfl, rfl⟩

/-! ## Helper lemmas about the Transcription Session -/

theorem transcribeSegment_event (engine : Engine) (ts : TranscriptionStream) (audio : List ℚ)
    (rate : ℚ) (fin : Bool) :
    (transcribeSegment engine ts audio rate fin).2
      = processTranscription ts (runInference engine audio) ((audio.length : ℚ) / rate) fin := by
  cases fin <;> rfl

theorem transcribeSegment_final_state (engine : Engine) (ts : TranscriptionStream)
    (audio : List ℚ) (rate : ℚ) :
    (transcribeSegment engine ts audio rate true).1
      = { ts with
          final_transcripts := ts.final_transcripts ++ [runInference engine audio]
          current_time_offset := ts.current_time_offset + (audio.length : ℚ) / rate
          segment_id := ts.segment_id + 1 } := rfl

theorem transcribeSegment_partial_state (engine : Engine) (ts : TranscriptionStream)
    (audio : List ℚ) (rate : ℚ) :
    (transcribeSegment engine ts audio rate false).1
      = { ts with partialText := runInference engine audio } := rfl

theorem runSegments_meta (engine : Engine) :
    ∀ (reqs : List (List ℚ × Bool)) (ts : TranscriptionStream),
      (runSegments engine ts reqs).2.map (fun e => (e.is_final, e.segment_id))
        = expectedMeta ts.segment_id reqs := by
  intro reqs
  induction reqs with
  | nil => intro ts; rfl
  | cons r rest ih =>
    intro ts
    obtain ⟨audio, fin⟩ := r
    cases fin <;>
      simp [runSegments, expectedMeta, transcribeSegment_event, ih,
        transcribeSegment_partial_state, transcribeSegment_final_state,
        processTranscription, baseEvent]

theorem runSegments_finals (engine : Engine) :
    ∀ (reqs : List (List ℚ × Bool)) (ts : TranscriptionStream),
      ((runSegments engine ts reqs).2.filter
          (fun e => decide (e.is_final = some true))).map Event.segment_id
        = finalIds ts.segment_id reqs := by
  intro reqs
  induction reqs with
  | nil => intro ts; rfl
  | cons r rest ih =>
    intro ts
    obtain ⟨audio, fin⟩ := r
    cases fin <;>
      simp [runSegments, finalIds, transcribeSegment_event, ih,
        transcribeSegment_partial_state, transcribeSegment_final_state,
        processTranscription, baseEvent]

theorem finalIds_eq :
    ∀ (reqs : List (List ℚ × Bool)) (c : ℤ),
      finalIds c reqs
        = (List.range (reqs.countP (fun r => r.2))).map (fun n : ℕ => some (c + (n : ℤ))) := by
  intro reqs
  induction reqs with
  | nil => intro c; rfl
  | cons r rest ih =>
    intro c
    obtain ⟨audio, fin⟩ := r
    cases fin
    · simpa [finalIds, List.countP_cons_of_neg] using ih c
    · rw [show finalIds c ((audio, true) :: rest) = some c :: finalIds (c + 1) rest from rfl]
      rw [List.countP_cons_of_pos _ _ (by rfl), List.range_succ_eq_map, List.map_cons,
        List.map_map, ih (c + 1)]
      congr 1
      · exact congrArg some (by push_cast; ring)
      · exact List.map_congr_left (fun i _ => congrArg some (by push_cast; ring))

theorem runSegments_offset (engine : Engine) :
    ∀ (reqs : List (List ℚ × Bool)) (ts : TranscriptionStream),
      (runSegments engine ts reqs).1.current_time_offset
        = ts.current_time_offset
          + ((reqs.filter (fun r => r.2)).map (fun r => ((r.1.length : ℚ) / 16000))).sum := by
  intro reqs
  induction reqs with
  | nil => intro ts; simp [runSegments]
  | cons r rest ih =>
    intro ts
    obtain ⟨audio, fin⟩ := r
    cases fin
    · simpa [runSegments, transcribeSegment_partial_state] using ih _
    · show (runSegments engine (transcribeSegment engine ts audio 16000 true).1 rest).1.current_time_offset = _
      rw [ih, transcribeSegment_final_state]
      simp
      ring

theorem processTranscription_words_head (ts : TranscriptionStream) (text : String) (d : ℚ)
    (fin : Bool) (w : WordTiming) (rest : List WordTiming)
    (h : (processTranscription ts text d fin).words = some (w :: rest)) :
    w.start = pyRound3 ts.current_time_offset := by
  simp only [processTranscription, baseEvent, Option.some.injEq] at h
  by_cases h1 : text.isEmpty
  · rw [if_pos h1] at h
    exact absurd h (by simp)
  · rw [if_neg h1] at h
    by_cases h2 : (pySplitWs (pyStrip text)).isEmpty
    · rw [if_pos h2] at h
      exact absurd h (by simp)
    · rw [if_neg h2] at h
      obtain ⟨a, l, hal⟩ : ∃ a l, pySplitWs (pyStrip text) = a :: l := by
        cases hw : pySplitWs (pyStrip text)
        · rw [hw] at h2; simp at h2
        · exact ⟨_, _, rfl⟩
      rw [hal, genWordsAux] at h
      injection h with hw ht
      rw [← hw]

/-! ## Claim C2 — segment id assignment -/

/-- C2 counterexample: a partial (non-final) transcription event does carry a
`segment_id` — the current counter value (here 0) — where the claim requires
partials to carry no segment id at all. -/
theorem c2_counterexample :
    ((transcribeSegment engineHi TranscriptionStream.init [1/2] 16000 false).2.is_final
        = some false)
    ∧ ¬ ((transcribeSegment engineHi TranscriptionStream.init [1/2] 16000 false).2.segment_id
        = none) := by
  decide

/-- C2 (amended): within one session the `segment_id` values on final events
are exactly 0, 1, 2, … in order with no gaps or repeats; but every event —
partials included — carries a `segment_id`: each event is stamped with the
current counter, which is the id of the next final segment, and the counter
advances only after finals. -/
theorem c2_segment_ids_amended (engine : Engine) (reqs : List (List ℚ × Bool)) :
    (((runSegments engine TranscriptionStream.init reqs).2.filter
        (fun e => decide (e.is_final = some true))).map Event.segment_id
      = (List.range (reqs.countP (fun r => r.2))).map (fun n : ℕ => some (n : ℤ)))
    ∧ ((runSegments engine TranscriptionStream.init reqs).2.map
        (fun e => (e.is_final, e.segment_id))
      = expectedMeta 0 reqs) := by
  constructor
  · rw [runSegments_finals, finalIds_eq]
    exact List.map_congr_left (fun n _ => congrArg some (by simp [TranscriptionStream.init]))
  · exact runSegments_meta engine reqs TranscriptionStream.init

/-! ## Claim C3 — engine failure handling -/

/-- C3 counterexample: when the engine raises, the failure is absorbed inside
`_run_inference`, which returns the placeholder text; `transcribe_segment`
then emits a normal `transcription` event (not an `error` event) and appends
the placeholder to the accumulated transcript — both contrary to the claim. -/
theorem c3_counterexample :
    ((transcribeSegment engineFail TranscriptionStream.init [1/2] 16000 true).2.type
        = "transcription")
    ∧ ¬ ((transcribeSegment engineFail TranscriptionStream.init [1/2] 16000 true).2.type
        = "error")
    ∧ ((transcribeSegment engineFail TranscriptionStream.init [1/2] 16000 true).2.error = none)
    ∧ ((transcribeSegment engineFail TranscriptionStream.init [1/2] 16000 true).1.final_transcripts
        = ["[audio processing error]"]) := by
  decide

/-- C3 (amended): when the Inference Engine call raises, no exception escapes
`transcribe_segment` and the session stays usable, but no `error`-typed event
is produced either: `_run_inference` swallows the failure and returns
fallback text ("" for near-silent audio, the placeholder
"[audio processing error]" otherwise), which flows through as an ordinary
final `transcription` event — the fallback text *is* appended to the
accumulated transcript, the segment counter increments and the time offset
advances, exactly as for a successful segment.  Only exceptions raised
outside `_run_inference` (the tensor-conversion code) reach the
`_error_result` path. -/
theorem c3_engine_failure_amended (engine : Engine) (ts : TranscriptionStream) (audio : List ℚ)
    (rate : ℚ) (e : String) (h : engine audio = Except.error e) :
    ((transcribeSegment engine ts audio rate true).2.type = "transcription")
    ∧ ((transcribeSegment engine ts audio rate true).2.error = none)
    ∧ ((transcribeSegment engine ts audio rate true).2.text
        = some (if ¬ audio.isEmpty ∧ meanSq audio < 1/1000000 then ""
                else "[audio processing error]"))
    ∧ ((transcribeSegment engine ts audio rate true).1.final_transcripts
        = ts.final_transcripts
            ++ [if ¬ audio.isEmpty ∧ meanSq audio < 1/1000000 then ""
                else "[audio processing error]"])
    ∧ ((transcribeSegment engine ts audio rate true).1.segment_id = ts.segment_id + 1)
    ∧ ((transcribeSegment engine ts audio rate true).1.current_time_offset
        = ts.current_time_offset + (audio.length : ℚ) / rate) := by
  have hru : runInference engine audio
      = (if ¬ audio.isEmpty ∧ meanSq audio < 1/1000000 then ""
         else "[audio processing error]") := by
    rw [runInference, h]
  refine ⟨?_, ?_, ?_, ?_, ?_, ?_⟩ <;>
    simp [transcribeSegment_event, transcribeSegment_final_state, processTranscription,
      baseEvent, hru]

/-- C3 witness: the amended theorem applied to the always-failing engine on a
loud 1-sample segment. -/
theorem c3_engine_failure_witness :
    (engineFail [1/2] = Except.error "CUDA out of memory")
    ∧ (((transcribeSegment engineFail TranscriptionStream.init [1/2] 16000 true).2.type
          = "transcription")
       ∧ ((transcribeSegment engineFail TranscriptionStream.init [1/2] 16000 true).2.error
          = none)
       ∧ ((transcribeSegment engineFail TranscriptionStream.init [1/2] 16000 true).2.text
          = some (if ¬ ([(1:ℚ)/2]).isEmpty ∧ meanSq [(1:ℚ)/2] < 1/1000000 then ""
                  else "[audio processing error]"))
       ∧ ((transcribeSegment engineFail TranscriptionStream.init [1/2] 16000 true).1.final_transcripts
          = TranscriptionStream.init.final_transcripts
              ++ [if ¬ ([(1:ℚ)/2]).isEmpty ∧ meanSq [(1:ℚ)/2] < 1/1000000 then ""
                  else "[audio processing error]"])
       ∧ ((transcribeSegment engineFail TranscriptionStream.init [1/2] 16000 true).1.segment_id
          = TranscriptionStream.init.segment_id + 1)
       ∧ ((transcribeSegment engineFail TranscriptionStream.init [1/2] 16000 true).1.current_time_offset
          = TranscriptionStream.init.current_time_offset + (([(1:ℚ)/2]).length : ℚ) / 16000)) :=
  ⟨rfl, c3_engine_failure_amended engineFail TranscriptionStream.init [1/2] 16000
    "CUDA out of memory" rfl⟩

/-! ## Claim C5 — time offsets -/

/-- C5 counterexample: after a first final segment of one sample
(duration d1 = 1/16000 s), the first word of the next final segment starts at
`round(d1, 3) = 0`, not at d1 — the generated start times are the running
offset rounded to 3 decimals, so they do not literally "begin at
d1 + … + d(k-1)". -/
theorem c5_counterexample :
    ((transcribeSegment engineHi TranscriptionStream.init [1/2] 16000 true).1.current_time_offset
        = 1/16000)
    ∧ ((transcribeSegment engineHi
          (transcribeSegment engineHi TranscriptionStream.init [1/2] 16000 true).1
          [1/2, 1/2] 16000 true).2.words
        = some [wHi])
    ∧ (wHi.start ≠ 1/16000) := by
  decide

/-- C5 (amended): the session's running time offset is exactly the sum
d1 + … + d(k-1) of the durations of the previously transcribed *final*
segments — partials interleaved anywhere never advance it — and the word
start times of the next final segment begin at that sum rounded to 3
decimal places (Python `round(·, 3)`), which is the only deviation from the
claim as stated. -/
theorem c5_time_offset_amended (engine : Engine) (reqs : List (List ℚ × Bool))
    (audio : List ℚ) :
    ((runSegments engine TranscriptionStream.init reqs).1.current_time_offset
      = ((reqs.filter (fun r => r.2)).map (fun r => ((r.1.length : ℚ) / 16000))).sum)
    ∧ (∀ (w : WordTiming) (rest : List WordTiming),
        (transcribeSegment engine (runSegments engine TranscriptionStream.init reqs).1
            audio 16000 true).2.words = some (w :: rest) →
        w.start
          = pyRound3 ((reqs.filter (fun r => r.2)).map
              (fun r => ((r.1.length : ℚ) / 16000))).sum) := by
  have h0 : (runSegments engine TranscriptionStream.init reqs).1.current_time_offset
      = ((reqs.filter (fun r => r.2)).map (fun r => ((r.1.length : ℚ) / 16000))).sum := by
    rw [runSegments_offset]
    simp [TranscriptionStream.init]
  refine ⟨h0, fun w rest hw => ?_⟩
  rw [transcribeSegment_event] at hw
  rw [processTranscription_words_head _ _ _ _ _ _ hw, h0]

/-- C5 witness: the amended theorem applied to one 1-sample final request
followed by a 2-sample final segment transcribed as "hi". -/
theorem c5_time_offset_witness :
    ((transcribeSegment engineHi
        (runSegments engineHi TranscriptionStream.init [([1/2], true)]).1
        [1/2, 1/2] 16000 true).2.words = some (wHi :: []))
    ∧ (wHi.start
        = pyRound3 (([([(1:ℚ)/2], true)].filter (fun r => r.2)).map
            (fun r => ((r.1.length : ℚ) / 16000))).sum) :=
  ⟨by decide, (c5_time_offset_amended engineHi [([1/2], true)] [1/2, 1/2]).2 wHi [] (by decide)⟩

/-! ## Claim C6 — word alignment on partials -/

/-- C6 counterexample: a partial (non-final) transcription of "hello world"
carries a populated two-entry `words` array, where the claim requires
partials to never carry word-level alignment entries. -/
theorem c6_counterexample :
    ((transcribeSegment engineHW TranscriptionStream.init [1/2, 1/2] 16000 false).2.is_final
        = some false)
    ∧ ((transcribeSegment engineHW TranscriptionStream.init [1/2, 1/2] 16000 false).2.words
        = some [{ word := "Hello", start := 0, stop := 0, confidence := 19/20 },
                { word := "world", start := 0, stop := 0, confidence := 19/20 }])
    ∧ ¬ ((transcribeSegment engineHW TranscriptionStream.init [1/2, 1/2] 16000 false).2.words
        = some []) := by
  decide

/-- C6 (amended): the `words` array is generated from the text alone,
identically for partial and final events — a partial event carries exactly
the word alignments a final event for the same audio would carry (the
handler only renames its `type` to `partial`) — and it is empty exactly when
the text is empty or contains no whitespace-separated word. -/
theorem c6_words_amended (engine : Engine) (ts : TranscriptionStream) (audio : List ℚ)
    (rate : ℚ) (text : String) (d : ℚ) (fin : Bool) :
    ((transcribeSegment engine ts audio rate false).2.words
      = (transcribeSegment engine ts audio rate true).2.words)
    ∧ (((processTranscription ts text d fin).words.getD []).isEmpty
        = (text.isEmpty || (pySplitWs (pyStrip text)).isEmpty)) := by
  constructor
  · rw [transcribeSegment_event, transcribeSegment_event]
    rfl
  · simp only [processTranscription, baseEvent, Option.getD_some]
    by_cases h1 : text.isEmpty
    · rw [if_pos h1]
      simp [h1]
    · rw [if_neg h1]
      by_cases h2 : (pySplitWs (pyStrip text)).isEmpty
      · rw [if_pos h2]
        simp [h1, h2]
      · rw [if_neg h2]
        obtain ⟨a, l, hal⟩ : ∃ a l, pySplitWs (pyStrip text) = a :: l := by
          cases hw : pySplitWs (pyStrip text)
          · rw [hw] at h2; simp at h2
          · exact ⟨_, _, rfl⟩
        rw [hal, genWordsAux]
        simp [h1, h2]

/-! ## Claim C7 — frame demultiplexing -/

/-- C7 counterexample: two frames of the same kind (both binary) are routed
to different handlers purely because of their first byte — a binary audio
frame that happens to begin with the byte `{` (0x7B) is routed to the
control handler.  Routing inspects content, not frame kind. -/
theorem c7_counterexample :
    (routeFrame (Frame.bin [123, 34]) = Route.control)
    ∧ (routeFrame (Frame.bin [0, 1]) = Route.audio)
    ∧ ¬ (routeFrame (Frame.bin [123, 34]) = routeFrame (Frame.bin [0, 1])) := by
  decide

/-- C7 (amended): classification is purely by content, never by frame kind:
the server loop forwards only the bytes, so any two frames whose bytes agree
on the first byte are routed identically — in particular a binary frame and
a text frame with the same payload take the same route — and a frame goes to
the control handler exactly when its first byte is `{` (0x7B). -/
theorem c7_routing_amended (f g : Frame) (bytes : List ℕ)
    (h : (frameBytes f).take 1 = (frameBytes g).take 1) :
    (routeFrame f = routeFrame g)
    ∧ (routeFrame (Frame.bin bytes) = routeFrame (Frame.text bytes))
    ∧ (routeFrame f = Route.control ↔ (frameBytes f).take 1 = [123]) := by
  refine ⟨?_, rfl, ?_⟩
  · rw [routeFrame, routeFrame, routeMessage, routeMessage, isControlFrame, isControlFrame, h]
  · rw [routeFrame, routeMessage, isControlFrame]
    by_cases hc : (frameBytes f).take 1 = [123]
    · simp [hc]
    · simp [hc]

/-- C7 witness: the amended theorem applied to a text frame and a binary
frame that both begin with the byte `{`. -/
theorem c7_routing_witness :
    ((frameBytes (Frame.text [123])).take 1 = (frameBytes (Frame.bin [123, 99])).take 1)
    ∧ ((routeFrame (Frame.text [123]) = routeFrame (Frame.bin [123, 99]))
       ∧ (routeFrame (Frame.bin [7]) = routeFrame (Frame.text [7]))
       ∧ (routeFrame (Frame.text [123]) = Route.control
            ↔ (frameBytes (Frame.text [123])).take 1 = [123])) :=
  ⟨by decide, c7_routing_amended (Frame.text [123]) (Frame.bin [123, 99]) [7] (by decide)⟩

/-! ## Claim C8 — malformed and unknown control messages -/

/-- C8 counterexample: a well-formed control message with an unrecognized
`type` (here "bogus") is silently dropped — state is unchanged but *no*
error event (indeed no event at all) is emitted, where the claim requires an
error event describing the problem. -/
theorem c8_counterexample :
    (handleControlMessage engineHi ConnState.init
        (ControlMsg.parsed (some "bogus")
          { sample_rate := none, vad_threshold := none, silence_duration := none })
      = (ConnState.init, [])) := by
  decide

/-- C8 (amended): in any state, an unparseable control frame yields exactly
one error event ("Invalid JSON: …") and leaves the state unchanged; but a
parseable control message whose `type` is not one of the four recognized
commands is only logged: the state is unchanged and *no* event is emitted. -/
theorem c8_control_errors_amended (engine : Engine) (st : ConnState) (emsg : String)
    (mt : Option String) (cfg : StreamConfig)
    (h1 : mt ≠ some "start_recording") (h2 : mt ≠ some "stop_recording")
    (h3 : mt ≠ some "configure") (h4 : mt ≠ some "ping") :
    (handleControlMessage engine st (ControlMsg.malformed emsg)
        = (st, [errorEvent ("Invalid JSON: " ++ emsg)]))
    ∧ (handleControlMessage engine st (ControlMsg.parsed mt cfg) = (st, [])) := by
  refine ⟨rfl, ?_⟩
  rw [handleControlMessage, if_neg h1, if_neg h2, if_neg h3, if_neg h4]

/-- C8 witness: the amended theorem applied to the unknown command type
"bogus" and the malformed frame with decode error "oops". -/
theorem c8_control_errors_witness :
    ((some "bogus" : Option String) ≠ some "start_recording")
    ∧ ((some "bogus" : Option String) ≠ some "stop_recording")
    ∧ ((some "bogus" : Option String) ≠ some "configure")
    ∧ ((some "bogus" : Option String) ≠ some "ping")
    ∧ ((handleControlMessage engineHi ConnState.init (ControlMsg.malformed "oops")
          = (ConnState.init, [errorEvent ("Invalid JSON: " ++ "oops")]))
       ∧ (handleControlMessage engineHi ConnState.init
            (ControlMsg.parsed (some "bogus") cfgSilence) = (ConnState.init, []))) :=
  ⟨by decide, by decide, by decide, by decide,
    c8_control_errors_amended engineHi ConnState.init "oops" (some "bogus") cfgSilence
      (by decide) (by decide) (by decide) (by decide)⟩

end Parakeet
